import Mathlib

/-!
Verification of `scripts/epec_extract.py`.

The script downloads a country × sector × year cube of PPP aggregates from
the EPEC portal, reconciles the summed cube against an independently fetched
grand total, and only then writes a CSV dataset and a metadata document.

This file is a shallow embedding of the script.  Network exchanges are
replaced by their decoded response payloads: each function that performs an
HTTP request in the script is modelled as a function of the payload the
request would return (or of an oracle `fetch : sector → country → payload`
for the per-cell endpoint).  Decoded JSON values are modelled by `PyVal`;
Python exceptions by `PyErr`; Python floats by `Rat`.
-/

namespace EPEC

deriving instance DecidableEq for Except

/-- Kinds of Python exception the script can raise while processing decoded
payloads.  The script's own explicit `raise RuntimeError(...)` statements map
to `runtimeError`; a failing dict subscript maps to `keyError`; failing
`int()` / `float()` coercions and iteration over a non-sequence map to
`valueError` / `typeError`. -/
inductive PyErr where
  | runtimeError (msg : String)
  | keyError (key : String)
  | typeError (msg : String)
  | valueError (msg : String)
deriving DecidableEq, Repr

/-- Decoded JSON payloads as delivered by `resp.json()`: Python `None`,
booleans, ints, floats (modelled exactly as rationals), strings, lists and
string-keyed dicts. -/
inductive PyVal where
  | none
  | bool (b : Bool)
  | int (n : Int)
  | float (q : Rat)
  | str (s : String)
  | list (xs : List PyVal)
  | dict (kvs : List (String × PyVal))

/-- Python truthiness, as used by `total or 0` in `iter_rows` (line 128):
`None`, `False`, zero numbers and empty containers are falsy. -/
def pyTruthy : PyVal → Bool
  | .none => false
  | .bool b => b
  | .int n => n != 0
  | .float q => q != 0
  | .str s => s != ""
  | .list xs => !xs.isEmpty
  | .dict kvs => !kvs.isEmpty

/-- Truncation toward zero, the behaviour of Python `int()` on a float. -/
def pyTrunc (q : Rat) : Int :=
  if q < 0 then -((-q).floor) else q.floor

/-- Integer-literal parsing for Python `int(str)`: optional surrounding
whitespace, optional single sign, decimal digits. -/
def pyStrToInt (s : String) : Option Int :=
  let t := s.trim
  if t.startsWith "+" then (t.drop 1).toNat?.map Int.ofNat else t.toInt?

/-- Digit list to the natural number it denotes. -/
def digitsToNat (cs : List Char) : Nat :=
  cs.foldl (fun a c => a * 10 + (c.toNat - 48)) 0

/-- Unsigned decimal literal (digits with an optional fractional part), the
finite-literal core of Python `float(str)`. -/
def parseUnsignedDecimal (cs : List Char) : Option Rat :=
  let ip := cs.takeWhile Char.isDigit
  let rest := cs.dropWhile Char.isDigit
  match rest with
  | [] => if ip.isEmpty then Option.none else Option.some ((digitsToNat ip : Rat))
  | c :: fp =>
    if c = '.' && fp.all Char.isDigit && (!ip.isEmpty || !fp.isEmpty) then
      Option.some ((digitsToNat ip : Rat) + (digitsToNat fp : Rat) / ((10 : Rat) ^ fp.length))
    else Option.none

/-- Signed finite decimal literal for Python `float(str)`. -/
def parsePyDecimal (s : String) : Option Rat :=
  match s.trim.data with
  | '-' :: cs => (parseUnsignedDecimal cs).map (fun q => -q)
  | '+' :: cs => parseUnsignedDecimal cs
  | cs => parseUnsignedDecimal cs

/-- Python `int(x)` on a decoded JSON value: ints pass through, bools become
0/1, floats truncate toward zero, strings are parsed as integer literals,
everything else is a `TypeError`. -/
def pyIntCoerce : PyVal → Except PyErr Int
  | .int n => .ok n
  | .bool b => .ok (if b then 1 else 0)
  | .float q => .ok (pyTrunc q)
  | .str s =>
    match pyStrToInt s with
    | Option.some n => .ok n
    | Option.none => .error (.valueError s)
  | _ => .error (.typeError "int() argument")

/-- Python `float(x)` on a decoded JSON value. -/
def pyFloatCoerce : PyVal → Except PyErr Rat
  | .int n => .ok (n : Rat)
  | .bool b => .ok (if b then 1 else 0)
  | .float q => .ok q
  | .str s =>
    match parsePyDecimal s with
    | Option.some q => .ok q
    | Option.none => .error (.valueError s)
  | _ => .error (.typeError "float() argument")

/-- Lookup in a decoded JSON object. -/
def lookupStr (kvs : List (String × PyVal)) (k : String) : Option PyVal :=
  (kvs.find? (fun kv => kv.1 == k)).map (fun kv => kv.2)

/-- Python `payload[k]` for a string key: `KeyError` when the key is absent,
`TypeError` when the value is not a dict. -/
def pySubscript (p : PyVal) (k : String) : Except PyErr PyVal :=
  match p with
  | .dict kvs =>
    match lookupStr kvs k with
    | Option.some v => .ok v
    | Option.none => .error (.keyError k)
  | _ => .error (.typeError "object is not subscriptable")

/-- Python `round()` on a rational: round half to even (the fractional part
`q - floor q` decides the direction, ties go to the even neighbour). -/
def pythonRound (q : Rat) : Int :=
  if q - (q.floor : Rat) < (1 : Rat) / 2 then q.floor
  else if (1 : Rat) / 2 < q - (q.floor : Rat) then q.floor + 1
  else if q.floor % 2 = 0 then q.floor else q.floor + 1

/-- Lines 84-86: `encode_filter` replaces each space with an underscore
(`value.replace(" ", "_")`, a character-for-character substitution). -/
def encode_filter (value : String) : String :=
  String.mk (value.data.map (fun c => if c = ' ' then '_' else c))

/-- Lines 33-42: the `Filters` dataclass. -/
structure Filters where
  sectors : List String
  countries : List String
  min_year : Int
  max_year : Int
deriving DecidableEq, Repr

/-- Lines 40-42: `year_range` is `range(min_year, max_year + 1)`. -/
def Filters.year_range (f : Filters) : List Int :=
  (List.range (f.max_year + 1 - f.min_year).toNat).map (fun (i : Nat) => f.min_year + (i : Int))

/-- One row yielded by `iter_rows` (lines 133-139). -/
structure Row where
  country : String
  sector : String
  year : Int
  project_count : Int
  project_value : Rat
deriving DecidableEq, Repr

/-- Lines 94-98: the query parameters sent to the sector/years endpoint. -/
def sector_years_params (sector country : String) (span : Int × Int) : List (String × String) :=
  [("year", toString span.1 ++ "," ++ toString span.2),
   ("sector", encode_filter sector),
   ("country", encode_filter country)]

/-- Lines 101-104 of `fetch_sector_years`, with the HTTP exchange replaced by
the decoded response payload: the only shape validation is that the payload
is a dict containing the key `data`. -/
def fetch_sector_years (payload : PyVal) : Except PyErr PyVal :=
  match payload with
  | .dict kvs =>
    if (lookupStr kvs "data").isSome then .ok payload
    else .error (.runtimeError "Unexpected payload")
  | _ => .error (.runtimeError "Unexpected payload")

/-- Truncating three-way zip, the behaviour of Python `zip` on three
sequences: stops at the shortest. -/
def zip3 : List α → List β → List γ → List (α × β × γ)
  | x :: xs, y :: ys, z :: zs => (x, y, z) :: zip3 xs ys zs
  | _, _, _ => []

/-- One entry of the dict comprehension at lines 127-130:
`int(year): (int(total or 0), float(total_value or 0))`. -/
def seriesEntry (t : PyVal × PyVal × PyVal) : Except PyErr (Int × Int × Rat) := do
  let y ← pyIntCoerce t.1
  let cnt ← pyIntCoerce (if pyTruthy t.2.1 then t.2.1 else .int 0)
  let v ← pyFloatCoerce (if pyTruthy t.2.2 then t.2.2 else .int 0)
  pure (y, cnt, v)

/-- Iteration over a decoded JSON value, as needed by `zip`: sequences are
JSON arrays; anything else is modelled as a `TypeError`. -/
def asSequence (p : PyVal) : Except PyErr (List PyVal) :=
  match p with
  | .list xs => .ok xs
  | _ => .error (.typeError "object is not iterable")

/-- Lines 127-130: `values_by_year`, the dict comprehension over
`zip(payload["data"], payload["total"], payload["totalValue"])`.  The three
subscripts are evaluated left to right, then the three sequences are zipped
(truncating to the shortest, as Python `zip` does) and each triple is
coerced.  The result is kept as the ordered list of (year, count, value)
entries; `seriesGet` below gives it Python-dict lookup semantics. -/
def values_by_year (payload : PyVal) : Except PyErr (List (Int × Int × Rat)) := do
  let ds ← pySubscript payload "data"
  let ts ← pySubscript payload "total"
  let vs ← pySubscript payload "totalValue"
  let ds ← asSequence ds
  let ts ← asSequence ts
  let vs ← asSequence vs
  (zip3 ds ts vs).mapM seriesEntry

/-- Line 132: `values_by_year.get(year, (0, 0.0))`.  A Python dict built by a
comprehension keeps the last binding for a duplicated key, hence the lookup
from the right. -/
def seriesGet (series : List (Int × Int × Rat)) (year : Int) : Int × Rat :=
  match series.reverse.find? (fun e => e.1 == year) with
  | Option.some e => e.2
  | Option.none => (0, 0)

/-- Lines 133-139: the record yielded for one (country, sector, year). -/
def row_for (country sector : String) (series : List (Int × Int × Rat)) (year : Int) : Row :=
  { country := country, sector := sector, year := year,
    project_count := (seriesGet series year).1,
    project_value := (seriesGet series year).2 }

/-- Lines 126-130 for one (country, sector) pair: validate the payload and
build the per-year series. -/
def cell_series (payload : PyVal) : Except PyErr (List (Int × Int × Rat)) := do
  let p ← fetch_sector_years payload
  values_by_year p

/-- Lines 126-139, one (country, sector) pair: validate the payload, build
the per-year series, and emit one row per year of the domain. -/
def cell_rows (f : Filters) (payload : PyVal) (country sector : String) :
    Except PyErr (List Row) := do
  let series ← cell_series payload
  pure (f.year_range.map (row_for country sector series))

/-- Lines 124-125: the (country, sector) pairs visited by the two nested
loops of `iter_rows`, outer over countries, inner over sectors, both in
domain order. -/
def pair_list (f : Filters) : List (String × String) :=
  f.countries.flatMap (fun c => f.sectors.map (fun s => (c, s)))

/-- The loop body of `iter_rows` over an explicit pair list.  The first
component records, in order, each call made to the sector/years endpoint as
(sector, country, span-low, span-high) — one call per pair reached (line
126) — and the second is the concatenated rows, or the first error.  `main`
materialises the generator with `list(...)`, so an error discards all rows. -/
def run_pairs (f : Filters) (fetch : String → String → PyVal) :
    List (String × String) → List (String × String × Int × Int) × Except PyErr (List Row)
  | [] => ([], .ok [])
  | p :: rest =>
    match cell_rows f (fetch p.2 p.1) p.1 p.2 with
    | .error e => ([(p.2, p.1, f.min_year, f.max_year)], .error e)
    | .ok rows =>
      let r := run_pairs f fetch rest
      ((p.2, p.1, f.min_year, f.max_year) :: r.1,
       match r.2 with
       | .error e => .error e
       | .ok more => .ok (rows ++ more))

/-- Lines 123-139: `list(iter_rows(filters))`, with the network replaced by
the oracle `fetch : sector → country → payload`. -/
def iter_rows (f : Filters) (fetch : String → String → PyVal) : Except PyErr (List Row) :=
  (run_pairs f fetch (pair_list f)).2

/-- The ordered trace of sector/years endpoint calls that `iter_rows`
makes. -/
def iter_calls (f : Filters) (fetch : String → String → PyVal) :
    List (String × String × Int × Int) :=
  (run_pairs f fetch (pair_list f)).1

/-- Lines 108-113: the query parameters sent to the quickStat endpoint. -/
def reference_params (f : Filters) : List (String × PyVal) :=
  [("year", .int f.min_year), ("year", .int f.max_year),
   ("sector", .str ""), ("ccountry", .str "all")]

/-- Lines 114-120 of `fetch_reference_totals`, with the HTTP exchange
replaced by the decoded response payload: requires a non-empty list, then
returns `(int(first["total"]), int(first["totalValue"]))`. -/
def fetch_reference_totals (payload : PyVal) : Except PyErr (Int × Int) :=
  match payload with
  | .list (first :: _) =>
    match pySubscript first "total" with
    | .error e => .error e
    | .ok t =>
      match pyIntCoerce t with
      | .error e => .error e
      | .ok tn =>
        match pySubscript first "totalValue" with
        | .error e => .error e
        | .ok v =>
          match pyIntCoerce v with
          | .error e => .error e
          | .ok vn => .ok (tn, vn)
  | _ => .error (.runtimeError "Unexpected quickStat payload")

/-- Line 203: `summed_projects`. -/
def summed_projects (rows : List Row) : Int :=
  (rows.map Row.project_count).sum

/-- Line 204: `summed_value = round(sum(...))`. -/
def summed_value (rows : List Row) : Int :=
  pythonRound ((rows.map Row.project_value).sum)

/-- Lines 205-213: the two reconciliation checks of `main`, in order —
strict equality on the rounded value, then lower bound on the count. -/
def reconcile (rows : List Row) (refP refV : Int) : Except PyErr Unit :=
  if summed_value rows ≠ refV then
    .error (.runtimeError "Total project value mismatch")
  else if summed_projects rows < refP then
    .error (.runtimeError "Total project count is below quickStat")
  else .ok ()

/-- Output-file writes performed by `main`. -/
inductive WriteEvent where
  | csv (rows : List Row)
  | metadata (row_count : Nat) (total_projects total_value : Int)
deriving DecidableEq, Repr

/-- Lines 142-152: `write_csv` raises before writing when there are no rows,
otherwise writes and returns the row count. -/
def write_csv (rows : List Row) : Except PyErr Nat :=
  if rows.isEmpty then .error (.runtimeError "No rows returned from the API.")
  else .ok rows.length

/-- Lines 203-222 of `main`, after rows and reference totals are in hand:
reconcile, then write the CSV, then write the metadata.  The first component
collects the file writes that actually happen, in order. -/
def main_after_fetch (rows : List Row) (refP refV : Int) :
    List WriteEvent × Except PyErr Nat :=
  match reconcile rows refP refV with
  | .error e => ([], .error e)
  | .ok _ =>
    match write_csv rows with
    | .error e => ([], .error e)
    | .ok n => ([.csv rows, .metadata n (summed_projects rows) (summed_value rows)], .ok n)

/-- Lines 197-223 of `main` from assembly onward: materialise `iter_rows`,
fetch the reference totals, reconcile and persist.  Any error aborts the run
with no writes. -/
def main_model (f : Filters) (fetch : String → String → PyVal) (refPayload : PyVal) :
    List WriteEvent × Except PyErr Nat :=
  match iter_rows f fetch with
  | .error e => ([], .error e)
  | .ok rows =>
    match fetch_reference_totals refPayload with
    | .error e => ([], .error e)
    | .ok pv => main_after_fetch rows pv.1 pv.2

/-- One `<option>` element as read by `extract_filters`: its (unstripped)
display text and its `value` attribute, the empty string when the attribute
is absent (`opt.get("value", "")`). -/
structure HtmlOpt where
  text : String
  value : String
deriving DecidableEq, Repr

/-- Substring test on character lists, the meaning of Python `in` for
strings. -/
def listHasInfix (pat : List Char) : List Char → Bool
  | [] => pat.isEmpty
  | c :: rest => pat.isPrefixOf (c :: rest) || listHasInfix pat rest

/-- The test `"--All--" in opt.get_text()` of lines 68 and 74: a
case-sensitive substring match on the unstripped text. -/
def has_all_marker (t : String) : Bool :=
  listHasInfix "--All--".data t.data

/-- Whitespace stripping, the `strip=True` of `opt.get_text(strip=True)`:
drop leading and trailing whitespace characters. -/
def stripStr (s : String) : String :=
  String.mk (((s.data.dropWhile Char.isWhitespace).reverse.dropWhile
    Char.isWhitespace).reverse)

/-- Lower-casing of an attribute value, the `.lower()` of line 75. -/
def lowerStr (s : String) : String :=
  String.mk (s.data.map Char.toLower)

/-- Lines 65-69: the sector labels kept by `extract_filters` — non-empty
stripped text that does not contain the literal `--All--`.  The option's
`value` attribute is not consulted. -/
def sector_labels (opts : List HtmlOpt) : List String :=
  (opts.filter (fun o => stripStr o.text != "" && !(has_all_marker o.text))).map
    (fun o => stripStr o.text)

/-- Lines 70-76: the country labels kept by `extract_filters` — additionally
excluding options whose lowercased `value` attribute equals `all`. -/
def country_labels (opts : List HtmlOpt) : List String :=
  (opts.filter (fun o =>
    stripStr o.text != "" && !(has_all_marker o.text) && lowerStr o.value != "all")).map
    (fun o => stripStr o.text)

/-- The parts of the portal page that `extract_filters` reads: the year
slider bounds and the two option lists, each absent when the element is
missing. -/
structure PortalPage where
  slider : Option (Int × Int)
  sector_select : Option (List HtmlOpt)
  country_select : Option (List HtmlOpt)

/-- Lines 51-81: `extract_filters` over the parsed portal page. -/
def extract_filters (page : PortalPage) : Except PyErr Filters :=
  match page.slider with
  | Option.none => .error (.runtimeError "Year slider not found in the EPEC portal HTML.")
  | Option.some yr =>
    match page.sector_select, page.country_select with
    | Option.some sopts, Option.some copts =>
      let sectors := sector_labels sopts
      let countries := country_labels copts
      if sectors.isEmpty || countries.isEmpty then
        .error (.runtimeError "Parsed empty sector or country list from the portal.")
      else .ok { sectors := sectors, countries := countries, min_year := yr.1, max_year := yr.2 }
    | _, _ => .error (.runtimeError "Unable to locate sector or country dropdowns in portal HTML.")

/-- The rows of a successful per-pair fetch, `[]` on error. -/
def okRows (e : Except PyErr (List Row)) : List Row :=
  match e with
  | .ok rs => rs
  | .error _ => []

/-- The series of a successful per-pair fetch, `[]` on error. -/
def okSeries (e : Except PyErr (List (Int × Int × Rat))) : List (Int × Int × Rat) :=
  match e with
  | .ok s => s
  | .error _ => []

/-- Does an `Except` hold the explicitly raised `RuntimeError` the script
uses to report a malformed payload? -/
def raisedRuntimeError : Except PyErr α → Bool
  | .error (.runtimeError _) => true
  | _ => false

lemma cell_rows_eq (f : Filters) (payload : PyVal) (c s : String) :
    cell_rows f payload c s =
      (cell_series payload).map (fun series => f.year_range.map (row_for c s series)) := by
  unfold cell_rows
  cases cell_series payload <;> rfl

lemma okRows_cell_rows (f : Filters) (payload : PyVal) (c s : String)
    (h : ∃ rs, cell_rows f payload c s = .ok rs) :
    okRows (cell_rows f payload c s) =
      f.year_range.map (row_for c s (okSeries (cell_series payload))) := by
  rcases h with ⟨rs, hrs⟩
  rw [cell_rows_eq] at hrs ⊢
  cases hcs : cell_series payload with
  | error e =>
    rw [hcs] at hrs
    simp [Except.map] at hrs
  | ok sr => rfl

lemma run_pairs_all_ok (f : Filters) (fetch : String → String → PyVal) :
    ∀ ps : List (String × String),
      (∀ p ∈ ps, ∃ rs, cell_rows f (fetch p.2 p.1) p.1 p.2 = .ok rs) →
      run_pairs f fetch ps =
        (ps.map (fun p => (p.2, p.1, f.min_year, f.max_year)),
         .ok (ps.flatMap (fun p => okRows (cell_rows f (fetch p.2 p.1) p.1 p.2)))) := by
  intro ps
  induction ps with
  | nil => intro _; rfl
  | cons p rest ih =>
    intro h
    obtain ⟨rs, hrs⟩ := h p (List.mem_cons_self p rest)
    have hrest := ih (fun q hq => h q (List.mem_cons_of_mem _ hq))
    simp only [run_pairs, hrs, hrest, List.map_cons, List.flatMap_cons, okRows]

lemma run_pairs_ok_forall (f : Filters) (fetch : String → String → PyVal) :
    ∀ (ps : List (String × String)) (rows : List Row),
      (run_pairs f fetch ps).2 = .ok rows →
      ∀ p ∈ ps, ∃ rs, cell_rows f (fetch p.2 p.1) p.1 p.2 = .ok rs := by
  intro ps
  induction ps with
  | nil => intro rows _ p hp; cases hp
  | cons q rest ih =>
    intro rows hrows p hp
    cases hcr : cell_rows f (fetch q.2 q.1) q.1 q.2 with
    | error e =>
      exfalso
      simp only [run_pairs, hcr] at hrows
      cases hrows
    | ok rs =>
      rcases List.mem_cons.mp hp with rfl | hmem
      · exact ⟨rs, hcr⟩
      · simp only [run_pairs, hcr] at hrows
        cases hrest : (run_pairs f fetch rest).2 with
        | error e => rw [hrest] at hrows; simp at hrows
        | ok more => exact ih more hrest p hmem

lemma iter_rows_ok_formula (f : Filters) (fetch : String → String → PyVal)
    (h : ∀ p ∈ pair_list f, ∃ rs, cell_rows f (fetch p.2 p.1) p.1 p.2 = .ok rs) :
    iter_rows f fetch =
      .ok ((pair_list f).flatMap (fun p =>
        f.year_range.map (row_for p.1 p.2 (okSeries (cell_series (fetch p.2 p.1)))))) := by
  unfold iter_rows
  rw [run_pairs_all_ok f fetch _ h]
  have : ∀ p ∈ pair_list f,
      okRows (cell_rows f (fetch p.2 p.1) p.1 p.2) =
        f.year_range.map (row_for p.1 p.2 (okSeries (cell_series (fetch p.2 p.1)))) :=
    fun p hp => okRows_cell_rows f (fetch p.2 p.1) p.1 p.2 (h p hp)
  simp only [List.flatMap_def]
  rw [List.map_congr_left this]

lemma length_flatMap_list (l : List α) (g : α → List β) :
    (l.flatMap g).length = (l.map (fun a => (g a).length)).sum := by
  induction l with
  | nil => rfl
  | cons a l ih => simp [List.flatMap_cons, ih]

lemma countP_flatMap_list (p : β → Bool) (l : List α) (g : α → List β) :
    (l.flatMap g).countP p = (l.map (fun a => (g a).countP p)).sum := by
  induction l with
  | nil => rfl
  | cons a l ih => simp [List.flatMap_cons, List.countP_append, ih]

lemma sum_map_const_nat (l : List α) (k : Nat) :
    (l.map (fun _ => k)).sum = l.length * k := by
  induction l with
  | nil => simp
  | cons a l ih => simp [ih, Nat.succ_mul, Nat.add_comm]

lemma year_range_nodup (f : Filters) : f.year_range.Nodup := by
  unfold Filters.year_range
  refine List.Nodup.map ?_ (List.nodup_range _)
  intro a b hab
  dsimp only at hab
  omega

lemma pair_list_length (f : Filters) :
    (pair_list f).length = f.countries.length * f.sectors.length := by
  unfold pair_list
  rw [length_flatMap_list]
  simp only [List.length_map]
  exact sum_map_const_nat _ _

lemma pair_list_nodup (f : Filters) (hc : f.countries.Nodup) (hs : f.sectors.Nodup) :
    (pair_list f).Nodup := by
  unfold pair_list
  rw [List.nodup_flatMap]
  refine ⟨fun c _ => hs.map (fun a b hab => by injection hab), ?_⟩
  refine hc.imp ?_
  intro c₁ c₂ hne x h₁ h₂
  rcases List.mem_map.mp h₁ with ⟨s₁, _, rfl⟩
  rcases List.mem_map.mp h₂ with ⟨s₂, _, h⟩
  injection h with h₁ h₂
  exact hne h₁.symm

/-- Did the computation succeed?  (Boolean form, so that hypotheses about a
whole pair list stay decidable.) -/
def isOkB : Except PyErr α → Bool
  | .ok _ => true
  | .error _ => false

lemma isOkB_iff (e : Except PyErr α) : isOkB e = true ↔ ∃ x, e = .ok x := by
  cases e <;> simp [isOkB]

lemma rat_floor_eq_intFloor (q : Rat) : q.floor = ⌊q⌋ := rfl

lemma pythonRound_intCast (n : Int) : pythonRound ((n : Rat)) = n := by
  unfold pythonRound
  rw [rat_floor_eq_intFloor, Int.floor_intCast, sub_self, if_pos (by norm_num)]

lemma pythonRound_ofNat (n : Nat) [n.AtLeastTwo] :
    pythonRound (OfNat.ofNat n : Rat) = OfNat.ofNat n := by
  rw [← Int.cast_ofNat, pythonRound_intCast]

lemma summed_value_single (r : Row) : summed_value [r] = pythonRound r.project_value := by
  simp [summed_value]

lemma summed_projects_single (r : Row) : summed_projects [r] = r.project_count := by
  simp [summed_projects]

lemma seriesGet_eq_default (series : List (Int × Int × Rat)) (y : Int)
    (h : ∀ e ∈ series, e.1 ≠ y) : seriesGet series y = (0, 0) := by
  unfold seriesGet
  have hnone : series.reverse.find? (fun e => e.1 == y) = Option.none := by
    rw [List.find?_eq_none]
    intro e he
    simpa using h e (List.mem_reverse.mp he)
  rw [hnone]

lemma reconcile_ok_iff (rows : List Row) (refP refV : Int) :
    reconcile rows refP refV = .ok () ↔
      summed_value rows = refV ∧ refP ≤ summed_projects rows := by
  constructor
  · intro h
    by_cases h1 : summed_value rows = refV
    · by_cases h2 : summed_projects rows < refP
      · rw [reconcile, if_neg (not_ne_iff.mpr h1), if_pos h2] at h
        cases h
      · exact ⟨h1, le_of_not_lt h2⟩
    · rw [reconcile, if_pos h1] at h
      cases h
  · rintro ⟨h1, h2⟩
    rw [reconcile, if_neg (not_ne_iff.mpr h1), if_neg (not_lt.mpr h2)]

lemma reconcile_error_of_not (rows : List Row) (refP refV : Int)
    (h : ¬(summed_value rows = refV ∧ refP ≤ summed_projects rows)) :
    ∃ e, reconcile rows refP refV = .error e := by
  cases hrc : reconcile rows refP refV with
  | error e => exact ⟨e, rfl⟩
  | ok u =>
    cases u
    exact absurd ((reconcile_ok_iff rows refP refV).mp hrc) h

/-- C1: the Reconciler computes `summedProjects` as the sum of the
`project_count` fields and `summedValue` as the rounded sum of the
`project_value` fields, and the run passes reconciliation iff `summedValue`
equals the reference total value exactly and `summedProjects` is at least
the reference total project count; with reference totals (100, 5000), a
summed cube of (100, 5000) passes, (95, 5000) fails, and (120, 5001)
fails. -/
theorem c1_reconciliation_rule :
    (∀ (rows : List Row) (refP refV : Int),
        reconcile rows refP refV = .ok () ↔
          summed_value rows = refV ∧ refP ≤ summed_projects rows)
    ∧ reconcile [⟨"X", "S", 2000, 100, 5000⟩] 100 5000 = .ok ()
    ∧ reconcile [⟨"X", "S", 2000, 95, 5000⟩] 100 5000 =
        .error (.runtimeError "Total project count is below quickStat")
    ∧ reconcile [⟨"X", "S", 2000, 120, 5001⟩] 100 5000 =
        .error (.runtimeError "Total project value mismatch") := by
  refine ⟨reconcile_ok_iff, ?_, ?_, ?_⟩
  · exact (reconcile_ok_iff _ _ _).mpr
      ⟨by rw [summed_value_single]; exact pythonRound_ofNat 5000,
       by rw [summed_projects_single]⟩
  · have hv : summed_value [(⟨"X", "S", 2000, 95, 5000⟩ : Row)] = 5000 := by
      rw [summed_value_single]; exact pythonRound_ofNat 5000
    rw [reconcile, if_neg (not_ne_iff.mpr hv),
      if_pos (by rw [summed_projects_single]; decide)]
  · have hv : summed_value [(⟨"X", "S", 2000, 120, 5001⟩ : Row)] = 5001 := by
      rw [summed_value_single]; exact pythonRound_ofNat 5001
    rw [reconcile, if_pos (by rw [hv]; decide)]

/-- C2: output files are written only after both reconciliation checks have
passed on the assembled rows; when either check fails the run aborts with an
error and writes nothing. -/
theorem c2_no_partial_persistence (f : Filters) (fetch : String → String → PyVal)
    (refPayload : PyVal) :
    ((main_model f fetch refPayload).1 ≠ [] →
      ∃ rows refP refV, iter_rows f fetch = .ok rows ∧
        fetch_reference_totals refPayload = .ok (refP, refV) ∧
        summed_value rows = refV ∧ refP ≤ summed_projects rows)
    ∧ (∀ rows refP refV, iter_rows f fetch = .ok rows →
        fetch_reference_totals refPayload = .ok (refP, refV) →
        ¬(summed_value rows = refV ∧ refP ≤ summed_projects rows) →
        (main_model f fetch refPayload).1 = [] ∧
          ∃ e, (main_model f fetch refPayload).2 = .error e) := by
  constructor
  · intro hw
    cases hir : iter_rows f fetch with
    | error e => simp only [main_model, hir] at hw; exact absurd rfl hw
    | ok rows =>
      cases hrt : fetch_reference_totals refPayload with
      | error e => simp only [main_model, hir, hrt] at hw; exact absurd rfl hw
      | ok pv =>
        have hmm : main_model f fetch refPayload = main_after_fetch rows pv.1 pv.2 := by
          simp only [main_model, hir, hrt]
        rw [hmm] at hw
        cases hrc : reconcile rows pv.1 pv.2 with
        | error e => simp only [main_after_fetch, hrc] at hw; exact absurd rfl hw
        | ok u =>
          cases u
          obtain ⟨h1, h2⟩ := (reconcile_ok_iff rows pv.1 pv.2).mp hrc
          exact ⟨rows, pv.1, pv.2, rfl, rfl, h1, h2⟩
  · intro rows refP refV hir hrt hnot
    obtain ⟨e, he⟩ := reconcile_error_of_not rows refP refV hnot
    have hmm : main_model f fetch refPayload = ([], .error e) := by
      simp only [main_model, hir, hrt, main_after_fetch, he]
    exact ⟨by rw [hmm], e, by rw [hmm]⟩

/-- C2 witness: a concrete run whose value check fails writes nothing and
aborts with an error. -/
theorem c2_witness :
    (main_model { sectors := ["S"], countries := ["A"], min_year := 2000, max_year := 2000 }
        (fun _ _ => .dict [("data", .list [.int 2000]), ("total", .list [.int 2]),
          ("totalValue", .list [.int 7])])
        (.list [.dict [("total", .int 2), ("totalValue", .int 9)]])).1 = [] ∧
    ∃ e, (main_model { sectors := ["S"], countries := ["A"], min_year := 2000, max_year := 2000 }
        (fun _ _ => .dict [("data", .list [.int 2000]), ("total", .list [.int 2]),
          ("totalValue", .list [.int 7])])
        (.list [.dict [("total", .int 2), ("totalValue", .int 9)]])).2 = .error e :=
  (c2_no_partial_persistence _ _ _).2
    [⟨"A", "S", 2000, 2, 7⟩] 2 9 (by decide) (by decide)
    (by
      intro h
      have hv := h.1
      rw [summed_value_single,
        show ((7 : Rat)) = ((7 : Int) : Rat) from by norm_num, pythonRound_intCast] at hv
      exact absurd hv (by decide))

/-- Is the decoded value the JSON string `s`? -/
def pyValIsStr (p : PyVal) (s : String) : Bool :=
  match p with
  | .str t => t == s
  | _ => false

lemma zip3_length : ∀ (xs : List α) (ys : List β) (zs : List γ),
    (zip3 xs ys zs).length = min xs.length (min ys.length zs.length)
  | [], _, _ => by simp [zip3]
  | _ :: _, [], _ => by simp [zip3]
  | _ :: _, _ :: _, [] => by simp [zip3]
  | x :: xs, y :: ys, z :: zs => by
    simp only [zip3, List.length_cons, zip3_length xs ys zs]
    omega

/-- C9 is false as stated: `encode_filter` replaces only the space
character; the tab in "a\tb" is an internal whitespace character yet it
survives encoding unchanged. -/
theorem c9_counterexample :
    ('\t').isWhitespace = true
    ∧ '\t' ∈ ("a\tb").data
    ∧ encode_filter "a\tb" = "a\tb"
    ∧ "a\tb" ≠ "a_b" :=
  ⟨by decide, by decide, rfl, by decide⟩

/-- C9 amended: `encode_filter` maps each space character (specifically
U+0020, not every whitespace character) to an underscore, is idempotent,
sends "Central Europe" to "Central_Europe", and is the identity on any
value containing no space. -/
theorem c9_encoding :
    (∀ s, encode_filter (encode_filter s) = encode_filter s)
    ∧ encode_filter "Central Europe" = "Central_Europe"
    ∧ (∀ s, (∀ c ∈ s.data, c ≠ ' ') → encode_filter s = s)
    ∧ (∀ s, (encode_filter s).data =
        s.data.map (fun c => if c = ' ' then '_' else c)) := by
  refine ⟨?_, by decide, ?_, fun s => rfl⟩
  · intro s
    unfold encode_filter
    apply congrArg String.mk
    rw [List.map_map]
    apply List.map_congr_left
    intro c _
    by_cases hc : c = ' ' <;> simp [hc, Function.comp]
  · intro s h
    cases s with
    | mk l =>
      apply congrArg String.mk
      conv_rhs => rw [← List.map_id l]
      apply List.map_congr_left
      intro c hc
      simp [h c hc]

/-- C9 witness: a space-free value is left unchanged. -/
theorem c9_witness : encode_filter "abc" = "abc" :=
  c9_encoding.2.2.1 "abc" (by decide)

/-- C7 is false as stated: the quickStat request sets the sector parameter
to the empty string, not to "all", and carries no "country" parameter at
all (the country-valued parameter is spelled "ccountry"). -/
theorem c7_counterexample :
    ((reference_params ⟨["Transport"], ["Belgium"], 2000, 2001⟩).map Prod.fst =
      ["year", "year", "sector", "ccountry"])
    ∧ ((reference_params ⟨["Transport"], ["Belgium"], 2000, 2001⟩).any
        (fun kv => kv.1 == "country") = false)
    ∧ ((reference_params ⟨["Transport"], ["Belgium"], 2000, 2001⟩).any
        (fun kv => kv.1 == "sector" && pyValIsStr kv.2 "all") = false)
    ∧ ((reference_params ⟨["Transport"], ["Belgium"], 2000, 2001⟩).any
        (fun kv => kv.1 == "sector" && pyValIsStr kv.2 "") = true) :=
  ⟨rfl, rfl, rfl, rfl⟩

/-- C7 amended: the reference fetch sends two "year" parameters (the
domain's min and max), a "sector" parameter equal to the empty string and a
"ccountry" parameter equal to "all", and returns the (total, totalValue)
pair read off the first element of the response. -/
theorem c7_reference_request (f : Filters) (t v : Int) (rest : List PyVal) :
    reference_params f =
      [("year", .int f.min_year), ("year", .int f.max_year),
       ("sector", .str ""), ("ccountry", .str "all")]
    ∧ fetch_reference_totals
        (.list (.dict [("total", .int t), ("totalValue", .int v)] :: rest)) =
      .ok (t, v) :=
  ⟨rfl, rfl⟩

/-- C10: on a well-shaped reference payload both fields are coerced with
`int()` before being returned, so a fractional (nonnegative) total value is
truncated toward zero — the floor — before the Reconciler compares it. -/
theorem c10_reference_totals_coercion (t : Int) (q : Rat) (rest : List PyVal)
    (hq : 0 ≤ q) :
    fetch_reference_totals
        (.list (.dict [("total", .int t), ("totalValue", .float q)] :: rest)) =
      .ok (t, pyTrunc q)
    ∧ pyTrunc q = q.floor
    ∧ ((q.floor : Rat)) ≤ q ∧ q < ((q.floor : Rat)) + 1 := by
  refine ⟨rfl, ?_, ?_, ?_⟩
  · unfold pyTrunc
    rw [if_neg (not_lt.mpr hq)]
  · rw [rat_floor_eq_intFloor]
    exact Int.floor_le q
  · rw [rat_floor_eq_intFloor]
    exact Int.lt_floor_add_one q

/-- A concrete rational equal to 5000.5, kept unnormalised so the kernel
can evaluate with it. -/
def sampleHalf : Rat := ⟨10001, 2, by decide, by decide⟩

/-- C10 witness: totalValue 5000.5 is truncated to 5000. -/
theorem c10_witness :
    fetch_reference_totals
        (.list [.dict [("total", .int 100), ("totalValue", .float sampleHalf)]]) =
      .ok (100, pyTrunc sampleHalf)
    ∧ pyTrunc sampleHalf = 5000 :=
  ⟨(c10_reference_totals_coercion 100 sampleHalf [] (by decide)).1, by decide⟩

/-- C6 is false as stated: a reference payload whose first element lacks
the total-count field aborts the run with a key-lookup error, not with the
explicitly raised malformed-payload RuntimeError. -/
theorem c6_counterexample :
    fetch_reference_totals (.list [.dict [("totalValue", .int 5000)]]) =
      .error (.keyError "total")
    ∧ raisedRuntimeError
        (fetch_reference_totals (.list [.dict [("totalValue", .int 5000)]])) = false :=
  ⟨rfl, rfl⟩

/-- C6 amended: a non-list or empty payload raises the malformed-payload
RuntimeError; a first element lacking the "total" (resp. "totalValue")
field raises a KeyError instead; in every case the failing fetch aborts
`main` before the reconciliation comparison, with nothing written. -/
theorem c6_reference_shape_errors (p : PyVal) :
    ((∀ xs, p ≠ .list xs) →
      fetch_reference_totals p = .error (.runtimeError "Unexpected quickStat payload"))
    ∧ (p = .list [] →
      fetch_reference_totals p = .error (.runtimeError "Unexpected quickStat payload"))
    ∧ (∀ kvs rest, p = .list (.dict kvs :: rest) → lookupStr kvs "total" = Option.none →
        fetch_reference_totals p = .error (.keyError "total"))
    ∧ (∀ kvs rest t n, p = .list (.dict kvs :: rest) →
        lookupStr kvs "total" = Option.some t → pyIntCoerce t = .ok n →
        lookupStr kvs "totalValue" = Option.none →
        fetch_reference_totals p = .error (.keyError "totalValue"))
    ∧ (∀ f fetch rows e, iter_rows f fetch = .ok rows →
        fetch_reference_totals p = .error e →
        main_model f fetch p = ([], .error e)) := by
  refine ⟨?_, ?_, ?_, ?_, ?_⟩
  · intro h
    cases p <;> first | rfl | exact absurd rfl (h _)
  · rintro rfl
    rfl
  · rintro kvs rest rfl hnone
    simp only [fetch_reference_totals, pySubscript, hnone]
  · rintro kvs rest t n rfl htot hcoe hnone
    simp only [fetch_reference_totals, pySubscript, htot, hcoe, hnone]
  · intro f fetch rows e hir hrt
    simp only [main_model, hir, hrt]

/-- C6 witness: with assembly succeeding, a reference payload lacking the
total field aborts the run with the key error and no writes. -/
theorem c6_witness :
    main_model { sectors := ["S"], countries := ["C"], min_year := 2000, max_year := 2000 }
      (fun _ _ => .dict [("data", .list [.int 2000]), ("total", .list [.int 2]),
        ("totalValue", .list [.float 7])])
      (.list [.dict [("totalValue", .int 5000)]]) =
      ([], .error (.keyError "total")) :=
  (c6_reference_shape_errors (.list [.dict [("totalValue", .int 5000)]])).2.2.2.2
    { sectors := ["S"], countries := ["C"], min_year := 2000, max_year := 2000 }
    (fun _ _ => .dict [("data", .list [.int 2000]), ("total", .list [.int 2]),
      ("totalValue", .list [.float 7])])
    [⟨"C", "S", 2000, 2, 7⟩] (.keyError "total") (by decide) (by decide)

/-- C4 is false as stated: a payload whose three sequences have unequal
lengths (2, 1 and 1 here) passes the shape check and is zipped with silent
truncation — year 2001 is dropped and later zero-filled — and a mapping
lacking the "total" key fails with a KeyError during assembly, not with the
malformed-payload RuntimeError. -/
theorem c4_counterexample :
    fetch_sector_years (.dict [("data", .list [.int 2000, .int 2001]),
        ("total", .list [.int 3]), ("totalValue", .list [.int 7])]) =
      .ok (.dict [("data", .list [.int 2000, .int 2001]),
        ("total", .list [.int 3]), ("totalValue", .list [.int 7])])
    ∧ values_by_year (.dict [("data", .list [.int 2000, .int 2001]),
        ("total", .list [.int 3]), ("totalValue", .list [.int 7])]) =
      .ok [(2000, 3, 7)]
    ∧ seriesGet [(2000, 3, 7)] 2001 = (0, 0)
    ∧ values_by_year (.dict [("data", .list [])]) = .error (.keyError "total") :=
  ⟨rfl, by decide, rfl, rfl⟩

/-- C4 amended: the only explicit shape validation is that the payload is a
mapping containing the "data" key; a mapping lacking "total" or
"totalValue" fails with a KeyError at assembly time; and the three
sequences are zipped with truncation to the shortest, never raising on a
length mismatch. -/
theorem c4_cell_payload_checks :
    (∀ p, (∃ q, fetch_sector_years p = .ok q) ↔
        (∃ kvs, p = .dict kvs ∧ (lookupStr kvs "data").isSome = true))
    ∧ (∀ (xs ys zs : List PyVal),
        (zip3 xs ys zs).length = min xs.length (min ys.length zs.length))
    ∧ (∀ ds, values_by_year (.dict [("data", ds)]) = .error (.keyError "total"))
    ∧ (∀ ds ts, values_by_year (.dict [("data", ds), ("total", ts)]) =
        .error (.keyError "totalValue")) := by
  refine ⟨?_, fun xs ys zs => zip3_length xs ys zs, fun ds => rfl, fun ds ts => rfl⟩
  intro p
  constructor
  · rintro ⟨q, hq⟩
    cases p with
    | dict kvs =>
      refine ⟨kvs, rfl, ?_⟩
      by_cases hd : (lookupStr kvs "data").isSome = true
      · exact hd
      · rw [fetch_sector_years, if_neg hd] at hq
        cases hq
    | none => cases hq
    | bool b => cases hq
    | int n => cases hq
    | float q => cases hq
    | str s => cases hq
    | list xs => cases hq
  · rintro ⟨kvs, rfl, hd⟩
    exact ⟨_, by rw [fetch_sector_years, if_pos hd]⟩

/-- C8 is false as stated: an option whose value is the literal "all" is
not excluded from the sector list (the sector filter never consults the
value attribute), and an option displaying "--ALL--" is excluded from
neither list because the marker match is case-sensitive. -/
theorem c8_counterexample :
    sector_labels [⟨"Everything", "all"⟩] = ["Everything"]
    ∧ sector_labels [⟨"--ALL--", "x"⟩] = ["--ALL--"]
    ∧ country_labels [⟨"--ALL--", "x"⟩] = ["--ALL--"] :=
  ⟨rfl, rfl, rfl⟩

/-- C8 amended: the sector list keeps exactly the options with non-empty
stripped text not containing the case-sensitive marker "--All--"; the
country list additionally drops options whose lowercased value equals
"all".  Only the country filter is value-sensitive, and only the value
match is case-insensitive. -/
theorem c8_sentinel_filtering (opts : List HtmlOpt) (s : String) :
    (s ∈ sector_labels opts ↔
      ∃ o ∈ opts, stripStr o.text = s ∧ stripStr o.text ≠ "" ∧ has_all_marker o.text = false)
    ∧ (s ∈ country_labels opts ↔
      ∃ o ∈ opts, stripStr o.text = s ∧ stripStr o.text ≠ "" ∧ has_all_marker o.text = false
        ∧ lowerStr o.value ≠ "all") := by
  constructor
  · constructor
    · intro hs
      rcases List.mem_map.mp hs with ⟨o, ho, rfl⟩
      rcases List.mem_filter.mp ho with ⟨hmem, hcond⟩
      rw [Bool.and_eq_true, bne_iff_ne, Bool.not_eq_true'] at hcond
      exact ⟨o, hmem, rfl, hcond.1, hcond.2⟩
    · rintro ⟨o, hmem, rfl, hne, hmark⟩
      refine List.mem_map.mpr ⟨o, List.mem_filter.mpr ⟨hmem, ?_⟩, rfl⟩
      rw [Bool.and_eq_true, bne_iff_ne, Bool.not_eq_true']
      exact ⟨hne, hmark⟩
  · constructor
    · intro hs
      rcases List.mem_map.mp hs with ⟨o, ho, rfl⟩
      rcases List.mem_filter.mp ho with ⟨hmem, hcond⟩
      rw [Bool.and_eq_true, Bool.and_eq_true, bne_iff_ne, Bool.not_eq_true',
        bne_iff_ne] at hcond
      exact ⟨o, hmem, rfl, hcond.1.1, hcond.1.2, hcond.2⟩
    · rintro ⟨o, hmem, rfl, hne, hmark, hval⟩
      refine List.mem_map.mpr ⟨o, List.mem_filter.mpr ⟨hmem, ?_⟩, rfl⟩
      rw [Bool.and_eq_true, Bool.and_eq_true, bne_iff_ne, Bool.not_eq_true',
        bne_iff_ne]
      exact ⟨⟨hne, hmark⟩, hval⟩

lemma countP_congr_eq (l : List α) (p q : α → Bool) (h : ∀ a ∈ l, p a = q a) :
    l.countP p = l.countP q :=
  List.countP_congr (fun a ha => by rw [h a ha])

lemma countP_beq_eq_one_of_nodup_mem [BEq α] [LawfulBEq α] :
    ∀ (l : List α) (x : α), l.Nodup → x ∈ l → l.countP (fun a => a == x) = 1
  | [], x, _, hx => absurd hx (List.not_mem_nil x)
  | a :: l, x, hn, hx => by
    rw [List.countP_cons]
    rcases List.mem_cons.mp hx with rfl | hmem
    · have hnot : x ∉ l := (List.nodup_cons.mp hn).1
      have hzero : l.countP (fun b => b == x) = 0 := by
        rw [List.countP_eq_zero]
        intro b hb hbx
        exact hnot (eq_of_beq hbx ▸ hb)
      simp [hzero]
    · have hne : a ≠ x := by
        rintro rfl
        exact (List.nodup_cons.mp hn).1 hmem
      have ih := countP_beq_eq_one_of_nodup_mem l x (List.nodup_cons.mp hn).2 hmem
      simp [ih, hne]

lemma sum_indicator_eq_zero [DecidableEq α] (l : List α) (x : α) (hx : x ∉ l) :
    (l.map (fun a => if a = x then 1 else 0)).sum = 0 := by
  induction l with
  | nil => rfl
  | cons a l ih =>
    have hne : a ≠ x := by
      rintro rfl
      exact hx (List.mem_cons_self a l)
    rw [List.map_cons, List.sum_cons, if_neg hne,
      ih (fun h => hx (List.mem_cons_of_mem a h))]

lemma sum_indicator_eq_one [DecidableEq α] :
    ∀ (l : List α) (x : α), l.Nodup → x ∈ l →
      (l.map (fun a => if a = x then 1 else 0)).sum = 1
  | [], x, _, hx => absurd hx (List.not_mem_nil x)
  | a :: l, x, hn, hx => by
    rw [List.map_cons, List.sum_cons]
    rcases List.mem_cons.mp hx with rfl | hmem
    · rw [if_pos rfl, sum_indicator_eq_zero l x (List.nodup_cons.mp hn).1]
    · have hne : a ≠ x := by
        rintro rfl
        exact (List.nodup_cons.mp hn).1 hmem
      rw [if_neg hne, sum_indicator_eq_one l x (List.nodup_cons.mp hn).2 hmem]

/-- C3 is false as stated: the domain with countries ["A", "A"], one sector
and one year meets the stated validity conditions (non-empty lists,
minYear <= maxYear), yet the assembler emits two records for the single
(country, sector, year) triple of the domain. -/
theorem c3_counterexample :
    ((⟨["S"], ["A", "A"], 2000, 2000⟩ : Filters).countries ≠ []
      ∧ (⟨["S"], ["A", "A"], 2000, 2000⟩ : Filters).sectors ≠ []
      ∧ (⟨["S"], ["A", "A"], 2000, 2000⟩ : Filters).min_year ≤
          (⟨["S"], ["A", "A"], 2000, 2000⟩ : Filters).max_year)
    ∧ iter_rows (⟨["S"], ["A", "A"], 2000, 2000⟩ : Filters)
        (fun _ _ => .dict [("data", .list []), ("total", .list []),
          ("totalValue", .list [])]) =
      .ok [⟨"A", "S", 2000, 0, 0⟩, ⟨"A", "S", 2000, 0, 0⟩]
    ∧ ([(⟨"A", "S", 2000, 0, 0⟩ : Row), ⟨"A", "S", 2000, 0, 0⟩].countP
        (fun r => r.country == "A" && r.sector == "S" && r.year == 2000)) = 2 :=
  ⟨⟨by decide, by decide, by decide⟩, by decide, by decide⟩

/-- C3 amended: whenever assembly succeeds, it emits exactly
len(countries) * len(sectors) * len(yearRange) records; when the country
and sector lists are moreover duplicate-free, there is exactly one record
per (country, sector, year) triple of the domain; and a year absent from a
cell's sparse series is zero-filled. -/
theorem c3_cube_shape (f : Filters) (fetch : String → String → PyVal)
    (rows : List Row) (hok : iter_rows f fetch = .ok rows) :
    rows.length = f.countries.length * f.sectors.length * f.year_range.length
    ∧ (f.countries.Nodup → f.sectors.Nodup →
        ∀ c ∈ f.countries, ∀ s ∈ f.sectors, ∀ y ∈ f.year_range,
          rows.countP
            (fun r => r.country == c && r.sector == s && r.year == y) = 1)
    ∧ (∀ series y, (∀ e ∈ series, e.1 ≠ y) → seriesGet series y = (0, 0)) := by
  have hall : ∀ p ∈ pair_list f, ∃ rs, cell_rows f (fetch p.2 p.1) p.1 p.2 = .ok rs :=
    run_pairs_ok_forall f fetch (pair_list f) rows hok
  have hform := iter_rows_ok_formula f fetch hall
  rw [hok] at hform
  injection hform with hrows
  subst hrows
  refine ⟨?_, ?_, fun series y h => seriesGet_eq_default series y h⟩
  · rw [length_flatMap_list]
    have hlen : ∀ p ∈ pair_list f,
        (List.map (row_for p.1 p.2 (okSeries (cell_series (fetch p.2 p.1))))
          f.year_range).length = f.year_range.length :=
      fun p _ => List.length_map _ _
    rw [List.map_congr_left hlen, sum_map_const_nat, pair_list_length]
  · intro hc hs c hcmem s hsmem y hymem
    rw [countP_flatMap_list]
    have hblock : ∀ p ∈ pair_list f,
        ((f.year_range.map (row_for p.1 p.2 (okSeries (cell_series (fetch p.2 p.1))))).countP
          (fun r => r.country == c && r.sector == s && r.year == y))
          = if p = (c, s) then 1 else 0 := by
      intro p hp
      rw [List.countP_map]
      by_cases hpc : p = (c, s)
      · subst hpc
        rw [if_pos rfl]
        have hcongr : ∀ y' ∈ f.year_range,
            (((fun r => r.country == c && r.sector == s && r.year == y) ∘
              row_for (c, s).1 (c, s).2
                (okSeries (cell_series (fetch (c, s).2 (c, s).1)))) y')
              = (y' == y) := by
          intro y' hy'
          simp [row_for, Function.comp]
        rw [countP_congr_eq _ _ _ hcongr]
        exact countP_beq_eq_one_of_nodup_mem f.year_range y (year_range_nodup f) hymem
      · rw [if_neg hpc, List.countP_eq_zero]
        intro y' hy'
        simp only [Function.comp, row_for]
        intro hpred
        rw [Bool.and_eq_true, Bool.and_eq_true] at hpred
        exact hpc (Prod.ext (by simpa using hpred.1.1) (by simpa using hpred.1.2))
    rw [List.map_congr_left hblock]
    exact sum_indicator_eq_one (pair_list f) (c, s) (pair_list_nodup f hc hs)
      (List.mem_flatMap.mpr ⟨c, hcmem, List.mem_map.mpr ⟨s, hsmem, rfl⟩⟩)

/-- C3 witness: the end-to-end domain Belgium/France x Transport x
2000-2001 with each cell series covering only year 2000 yields exactly
4 = 2 * 1 * 2 records, the 2001 entries zero-filled. -/
theorem c3_witness :
    iter_rows (⟨["Transport"], ["Belgium", "France"], 2000, 2001⟩ : Filters)
      (fun _ _ => .dict [("data", .list [.int 2000]), ("total", .list [.int 2]),
        ("totalValue", .list [.float 7])]) =
      .ok [⟨"Belgium", "Transport", 2000, 2, 7⟩, ⟨"Belgium", "Transport", 2001, 0, 0⟩,
           ⟨"France", "Transport", 2000, 2, 7⟩, ⟨"France", "Transport", 2001, 0, 0⟩]
    ∧ ([(⟨"Belgium", "Transport", 2000, 2, 7⟩ : Row), ⟨"Belgium", "Transport", 2001, 0, 0⟩,
        ⟨"France", "Transport", 2000, 2, 7⟩, ⟨"France", "Transport", 2001, 0, 0⟩] :
          List Row).length =
      (⟨["Transport"], ["Belgium", "France"], 2000, 2001⟩ : Filters).countries.length *
        (⟨["Transport"], ["Belgium", "France"], 2000, 2001⟩ : Filters).sectors.length *
        (⟨["Transport"], ["Belgium", "France"], 2000, 2001⟩ : Filters).year_range.length :=
  ⟨by decide,
   (c3_cube_shape (⟨["Transport"], ["Belgium", "France"], 2000, 2001⟩ : Filters)
     (fun _ _ => .dict [("data", .list [.int 2000]), ("total", .list [.int 2]),
       ("totalValue", .list [.float 7])]) _ (by decide)).1⟩

/-- C5: with every per-pair fetch succeeding, the assembler emits its
records in the fixed deterministic order — countries outer in domain order,
sectors middle in domain order, years inner ascending — invokes the
sector/years endpoint exactly once per (country, sector) pair, always with
the pair's full year span, and substitutes (0, 0.0) for any year of the
domain absent from the returned series. -/
theorem c5_assembly_order (f : Filters) (fetch : String → String → PyVal)
    (hok : ∀ p ∈ pair_list f, isOkB (cell_rows f (fetch p.2 p.1) p.1 p.2) = true) :
    iter_calls f fetch =
      (pair_list f).map (fun p => (p.2, p.1, f.min_year, f.max_year))
    ∧ iter_rows f fetch =
      .ok ((pair_list f).flatMap (fun p =>
        f.year_range.map (row_for p.1 p.2 (okSeries (cell_series (fetch p.2 p.1))))))
    ∧ (f.countries.Nodup → f.sectors.Nodup →
        ∀ c ∈ f.countries, ∀ s ∈ f.sectors,
          (iter_calls f fetch).countP
            (fun call => call == (s, c, f.min_year, f.max_year)) = 1)
    ∧ (∀ series y, (∀ e ∈ series, e.1 ≠ y) → seriesGet series y = (0, 0)) := by
  have hall : ∀ p ∈ pair_list f, ∃ rs, cell_rows f (fetch p.2 p.1) p.1 p.2 = .ok rs :=
    fun p hp => (isOkB_iff _).mp (hok p hp)
  have hrp := run_pairs_all_ok f fetch (pair_list f) hall
  have hcalls : iter_calls f fetch =
      (pair_list f).map (fun p => (p.2, p.1, f.min_year, f.max_year)) := by
    unfold iter_calls
    rw [hrp]
  refine ⟨hcalls, iter_rows_ok_formula f fetch hall, ?_,
    fun series y h => seriesGet_eq_default series y h⟩
  intro hc hs c hcmem s hsmem
  rw [hcalls, List.countP_map]
  have hcongr : ∀ p ∈ pair_list f,
      (((fun call => call == (s, c, f.min_year, f.max_year)) ∘
        (fun p => (p.2, p.1, f.min_year, f.max_year))) p) = (p == (c, s)) := by
    intro p hp
    by_cases hpc : p = (c, s)
    · subst hpc
      simp [Function.comp]
    · have h1 : ¬((p.2, p.1, f.min_year, f.max_year) =
          (s, c, f.min_year, f.max_year)) := by
        intro h
        apply hpc
        have h2 := congrArg Prod.fst h
        have h3 := congrArg (fun t => t.2.1) h
        exact Prod.ext h3 h2
      simp [Function.comp, beq_eq_false_iff_ne, h1, hpc]
  rw [countP_congr_eq _ _ _ hcongr]
  exact countP_beq_eq_one_of_nodup_mem (pair_list f) (c, s)
    (pair_list_nodup f hc hs)
    (List.mem_flatMap.mpr ⟨c, hcmem, List.mem_map.mpr ⟨s, hsmem, rfl⟩⟩)

/-- C5 witness: two countries and one sector give exactly one call per
pair, in domain order, each with the full 2000-2001 span. -/
theorem c5_witness :
    iter_calls (⟨["Transport"], ["Belgium", "France"], 2000, 2001⟩ : Filters)
      (fun _ _ => .dict [("data", .list [.int 2000]), ("total", .list [.int 2]),
        ("totalValue", .list [.float 7])]) =
      [("Transport", "Belgium", 2000, 2001), ("Transport", "France", 2000, 2001)] :=
  (c5_assembly_order (⟨["Transport"], ["Belgium", "France"], 2000, 2001⟩ : Filters)
    (fun _ _ => .dict [("data", .list [.int 2000]), ("total", .list [.int 2]),
      ("totalValue", .list [.float 7])]) (by decide)).1

end EPEC
